import Mathlib

/-!
Shallow embedding of the `generate_image` handler of `src/app.py`
(a Flask proxy that submits an image-generation job to an external
asynchronous inference API, polls its status, fetches the result and
extracts the image URL), together with proofs of the behavioural
claims about it.

Modelling conventions:
* JSON values are the inductive `Json` below; the bodies delivered by
  the external service arrive already parsed (the `.json()` step of the
  source is not a failure source in this model).
* Time is a discrete counter of "time units" (the source uses seconds).
  Each outbound call has a duration supplied by the environment `Env`;
  `time.sleep(POLL_INTERVAL)` advances time by `POLL_INTERVAL`.
  The loop clock `elapsed` counts units since `start_time = time.time()`
  was read, i.e. since just after the submit call returned.
* A `requests` transport failure, and an HTTP error status raised by
  `raise_for_status` (codes 400-599), both surface as the
  `requests.exceptions.RequestException` handler of the source (502).
* Python `d.get(k)` on a non-dict raises `AttributeError`, which the
  source catches in its blanket `except Exception` handler (500);
  `dictGet` returns `Except.error` in that case.
* The exception text interpolated into the 502/500 f-strings of the
  source is not modelled; a fixed placeholder stands for it.
-/

namespace FalProxy

/-- JSON values, as produced by parsing a response body. -/
inductive Json where
  | null
  | bool (b : Bool)
  | num (n : Int)
  | str (s : String)
  | arr (xs : List Json)
  | obj (kvs : List (String × Json))
  deriving Repr

/-- Python truthiness of a JSON value (`if not x`). -/
def Json.truthy : Json → Bool
  | .null => false
  | .bool b => b
  | .num n => n != 0
  | .str s => s != ""
  | .arr xs => !xs.isEmpty
  | .obj kvs => !kvs.isEmpty

/-- Python truthiness of an optional string (the env var may be unset). -/
def truthyOptStr : Option String → Bool
  | none => false
  | some s => s != ""

/-- Python truthiness of the result of `d.get(k)` (`None` is falsy). -/
def truthyOptJson : Option Json → Bool
  | none => false
  | some j => j.truthy

/-- Python `d.get(k)`: on a dict, `none` when the key is missing;
on any other value, raises `AttributeError` (modelled as `error`). -/
def dictGet : Json → String → Except Unit (Option Json)
  | .obj kvs, k => .ok (kvs.lookup k)
  | _, _ => .error ()

/-- Python `d[k]` subscripting with a string key, with every failure
(`KeyError` on a missing key, `TypeError` on a non-dict) collapsed to
`none`, exactly as the `except (KeyError, IndexError, TypeError)` of the
source treats them. -/
def pySubscriptStr : Json → String → Option Json
  | .obj kvs, k => kvs.lookup k
  | _, _ => none

/-- Python `x[0]`, with `IndexError`/`TypeError` collapsed to `none`.
Subscripting a string with 0 yields its first character as a
one-character string. -/
def pyIndexZero : Json → Option Json
  | .arr (x :: _) => some x
  | .arr [] => none
  | .str s =>
    match s.data with
    | [] => none
    | c :: _ => some (.str (String.mk [c]))
  | _ => none

/-- The nested extraction `result_data["result"]["output"]["images"][0]["url"]`
of the source, `none` when any step raises one of the caught exceptions. -/
def extractImageUrl (result_data : Json) : Option Json :=
  (pySubscriptStr result_data "result").bind fun r =>
    (pySubscriptStr r "output").bind fun o =>
      (pySubscriptStr o "images").bind fun imgs =>
        (pyIndexZero imgs).bind fun first =>
          pySubscriptStr first "url"

/-- Outcome of one outbound HTTP call: a transport-level failure
(`requests.exceptions.RequestException` before any response), or a
response with an HTTP status code and a parsed JSON body. -/
inductive CallResult where
  | transportError
  | ok (httpStatus : Nat) (body : Json)

/-- The external world seen by one handler invocation: the submit
response, the n-th status-poll response, the fetch response, and the
duration (in time units) of each call. -/
structure Env where
  submit : CallResult
  submitDuration : Nat
  statusCalls : Nat → CallResult
  statusDurations : Nat → Nat
  fetch : CallResult
  fetchDuration : Nat

/-- Observable actions of the handler, in order of occurrence. -/
inductive Event where
  | submit
  | status
  | sleep (d : Nat)
  | fetch
  deriving DecidableEq, Repr

/-- Number of occurrences of an event in a trace. -/
def countEvent (ev : Event) : List Event → Nat
  | [] => 0
  | x :: xs => (if x = ev then 1 else 0) + countEvent ev xs

/-- How the polling loop of the source terminates. Each constructor
carries `elapsed` (time units since `start_time`) at the exit. -/
inductive LoopExit where
  | timeout (e : Nat)
  | httpError (e : Nat)
  | attrError (e : Nat)
  | jobFailed (e : Nat)
  | complete (e : Nat)
  deriving DecidableEq, Repr

/-- Result of running the polling loop: the events it performed, the
`elapsed` value at which each status call was issued, and its exit. -/
structure LoopRes where
  events : List Event
  issues : List Nat
  exit : LoopExit

/-- `POLL_INTERVAL = 3` of the source. -/
def POLL_INTERVAL : Nat := 3

/-- `timeout = 120` of the source. -/
def TIMEOUT : Nat := 120

/-- Python `status == "COMPLETE"` on the value of
`status_data.get("status")`. -/
def isComplete : Option Json → Bool
  | some (.str s) => s == "COMPLETE"
  | _ => false

/-- Python `status in ["FAILED", "ERROR"]`. -/
def isFailedOrError : Option Json → Bool
  | some (.str s) => s == "FAILED" || s == "ERROR"
  | _ => false

/-- The `while True` polling loop of the source (lines 215-232).
`s` and `dur` are the status-call responses and durations, `i` the
index of the next status call, `elapsed` the time units since
`start_time`. The check `time.time() - start_time > timeout` is the
first thing in the loop body; a status call is only issued when it
passes. A non-terminal status sleeps `POLL_INTERVAL` and iterates. -/
def pollLoop (s : Nat → CallResult) (dur : Nat → Nat) (i elapsed : Nat) : LoopRes :=
  if _h : TIMEOUT < elapsed then
    ⟨[], [], .timeout elapsed⟩
  else
    match s i with
    | .transportError => ⟨[.status], [elapsed], .httpError (elapsed + dur i)⟩
    | .ok code body =>
      let e2 := elapsed + dur i
      if 400 ≤ code ∧ code < 600 then
        ⟨[.status], [elapsed], .httpError e2⟩
      else
        match dictGet body "status" with
        | .error _ => ⟨[.status], [elapsed], .attrError e2⟩
        | .ok st =>
          if isComplete st then
            ⟨[.status], [elapsed], .complete e2⟩
          else if isFailedOrError st then
            ⟨[.status], [elapsed], .jobFailed e2⟩
          else
            let rest := pollLoop s dur (i + 1) (e2 + POLL_INTERVAL)
            ⟨.status :: .sleep POLL_INTERVAL :: rest.events,
             elapsed :: rest.issues, rest.exit⟩
termination_by TIMEOUT + 1 - elapsed
decreasing_by
  simp_wf
  simp only [TIMEOUT, POLL_INTERVAL] at *
  omega

/-- What one handler invocation returns and does: the HTTP status code
and JSON body sent to the client, the outbound events, the absolute
time (units since handler entry) at which each status call was issued,
when the polling loop ran, `elapsed` at its exit, and the raw response
structures printed to the server log. The only diagnostic of the source
that prints a raw response structure is
`print("Unexpected result structure:", result_data)` (line 246); the two
exception handlers print only the exception text, which carries no
response structure, so `logged` stays empty there. -/
structure HandlerResult where
  statusCode : Nat
  body : Json
  events : List Event
  issues : List Nat
  exitElapsed : Option Nat
  logged : List Json
  deriving Repr

/-- A JSON error body `{"error": msg}` as built by `jsonify`. -/
def errBody (msg : String) : Json := .obj [("error", .str msg)]

/-- Lines 234-247 of the source: fetch the final result, raise on a bad
HTTP status, extract the image URL, and map structural mismatches to
the parse-error response, printing the raw `result_data` to the server
log first (line 246). Returns the client status code, the body, and the
raw structures printed to the log. -/
def fetchStage (fetch : CallResult) : Nat × Json × List Json :=
  match fetch with
  | .transportError => (502, errBody "API request failed: <exception>", [])
  | .ok code body =>
    if 400 ≤ code ∧ code < 600 then
      (502, errBody "API request failed: <exception>", [])
    else
      match extractImageUrl body with
      | some u => (200, Json.obj [("imageUrl", u)], [])
      | none =>
        (500, errBody "Could not parse image URL from model response.",
         [body])

/-- Lines 208-254 of the source, after a successful submit: run the
polling loop (the clock `start_time` is read here, so the loop clock
starts at 0 just after submit returned), map each loop exit to its
response, and on `COMPLETE` run the fetch stage. Issue times are
converted to absolute handler time by adding the submit duration. -/
def afterSubmit (env : Env) : HandlerResult :=
  let lr := pollLoop env.statusCalls env.statusDurations 0 0
  let issues := lr.issues.map (fun e => env.submitDuration + e)
  match lr.exit with
  | .timeout e =>
    ⟨504, errBody "Request timed out while waiting for model.",
     .submit :: lr.events, issues, some e, []⟩
  | .httpError e =>
    ⟨502, errBody "API request failed: <exception>",
     .submit :: lr.events, issues, some e, []⟩
  | .attrError e =>
    ⟨500, errBody "An internal server error occurred: <exception>",
     .submit :: lr.events, issues, some e, []⟩
  | .jobFailed e =>
    ⟨500, errBody "Model generation failed.",
     .submit :: lr.events, issues, some e, []⟩
  | .complete e =>
    let fr := fetchStage env.fetch
    ⟨fr.1, fr.2.1, .submit :: lr.events ++ [.fetch], issues, some e, fr.2.2⟩

/-- The `generate_image` handler of the source (lines 166-254).
`MODEL_ACCESS_KEY` is the credential from the environment, `reqBody`
the parsed JSON body of the client request, `env` the external world. -/
def generate_image (MODEL_ACCESS_KEY : Option String) (reqBody : Json)
    (env : Env) : HandlerResult :=
  if !(truthyOptStr MODEL_ACCESS_KEY) then
    ⟨500, errBody "Server is missing MODEL_ACCESS_KEY environment variable.",
     [], [], none, []⟩
  else
    match dictGet reqBody "prompt" with
    | .error _ =>
      ⟨500, errBody "An internal server error occurred: <exception>",
       [], [], none, []⟩
    | .ok prompt =>
      if !(truthyOptJson prompt) then
        ⟨400, errBody "No prompt provided.", [], [], none, []⟩
      else
        match env.submit with
        | .transportError =>
          ⟨502, errBody "API request failed: <exception>",
           [.submit], [], none, []⟩
        | .ok code body =>
          if 400 ≤ code ∧ code < 600 then
            ⟨502, errBody "API request failed: <exception>",
             [.submit], [], none, []⟩
          else
            match dictGet body "request_id" with
            | .error _ =>
              ⟨500, errBody "An internal server error occurred: <exception>",
               [.submit], [], none, []⟩
            | .ok request_id =>
              if !(truthyOptJson request_id) then
                ⟨500, errBody "Failed to submit job to DO.",
                 [.submit], [], none, []⟩
              else
                afterSubmit env

/-- A status-call outcome that keeps the loop polling: a response with a
non-error HTTP status whose body is a dict and whose `status` value is
neither `COMPLETE` nor `FAILED` nor `ERROR`. -/
def nonTerminal : CallResult → Bool
  | .transportError => false
  | .ok code body =>
    if 400 ≤ code ∧ code < 600 then false
    else
      match dictGet body "status" with
      | .error _ => false
      | .ok st => !(isComplete st) && !(isFailedOrError st)

/-- A status-call outcome that ends the loop in success: non-error HTTP
status, dict body, `status` equal to `COMPLETE`. -/
def completeCall : CallResult → Bool
  | .transportError => false
  | .ok code body =>
    if 400 ≤ code ∧ code < 600 then false
    else
      match dictGet body "status" with
      | .error _ => false
      | .ok st => isComplete st

/-- A status-call outcome that ends the loop in failure: non-error HTTP
status, dict body, `status` equal to `FAILED` or `ERROR`. -/
def failedCall : CallResult → Bool
  | .transportError => false
  | .ok code body =>
    if 400 ≤ code ∧ code < 600 then false
    else
      match dictGet body "status" with
      | .error _ => false
      | .ok st => isFailedOrError st

/-- The loop clock just before the k-th status call counted from a loop
state with next index `i` and clock `elapsed`: each iteration adds the
duration of its status call plus the `POLL_INTERVAL` sleep. -/
def elapsedAt (dur : Nat → Nat) : Nat → Nat → Nat → Nat
  | _, elapsed, 0 => elapsed
  | i, elapsed, k + 1 => elapsedAt dur (i + 1) (elapsed + dur i + POLL_INTERVAL) k

/-- The issue clocks of the first `m` status calls from a loop state
with next index `i` and clock `elapsed`. -/
def issuesOf (dur : Nat → Nat) : Nat → Nat → Nat → List Nat
  | _, _, 0 => []
  | i, elapsed, m + 1 =>
    elapsed :: issuesOf dur (i + 1) (elapsed + dur i + POLL_INTERVAL) m

/-- A status-call outcome whose body carries a `status` STRING that is
none of `COMPLETE`, `FAILED`, `ERROR` (the non-terminal statuses the
claims quantify over), delivered with a non-error HTTP status. -/
def nonTerminalString : CallResult → Bool
  | .transportError => false
  | .ok code body =>
    if 400 ≤ code ∧ code < 600 then false
    else
      match dictGet body "status" with
      | .ok (some (.str sk)) =>
        !(sk == "COMPLETE") && !(sk == "FAILED") && !(sk == "ERROR")
      | _ => false

/-- A sample configured credential. -/
def sampleKey : Option String := some "secret-key"

/-- A sample client request body with a non-empty prompt. -/
def sampleReq : Json := .obj [("prompt", .str "a cat on a laptop")]

/-- A sample submit response body carrying a job handle. -/
def sampleSubmitBody : Json := .obj [("request_id", .str "req-1")]

/-- A status response with a non-terminal status string. -/
def pendingCall : CallResult := .ok 200 (.obj [("status", .str "IN_PROGRESS")])

/-- A status response with status `COMPLETE`. -/
def doneCall : CallResult := .ok 200 (.obj [("status", .str "COMPLETE")])

/-- A status response with status `FAILED`. -/
def failedStatusCall : CallResult := .ok 200 (.obj [("status", .str "FAILED")])

/-- A well-formed fetch response body with one image URL. -/
def sampleFetchBody : Json :=
  .obj [("result", .obj [("output", .obj [("images",
    .arr [.obj [("url", .str "https://x/y.png")]])])])]

/-- An environment whose first status poll reports `COMPLETE`. -/
def envComplete : Env :=
  ⟨.ok 200 sampleSubmitBody, 1, fun _ => doneCall, fun _ => 0,
   .ok 200 sampleFetchBody, 1⟩

/-- An environment with one pending status poll before `COMPLETE`. -/
def envOnePending : Env :=
  ⟨.ok 200 sampleSubmitBody, 0,
   fun k => if k = 0 then pendingCall else doneCall, fun _ => 0,
   .ok 200 sampleFetchBody, 0⟩

/-- An environment whose status polls are pending forever. -/
def envAllPending : Env :=
  ⟨.ok 200 sampleSubmitBody, 0, fun _ => pendingCall, fun _ => 0,
   .ok 200 sampleFetchBody, 0⟩

/-- An environment whose first status poll reports `FAILED`. -/
def envFailed : Env :=
  ⟨.ok 200 sampleSubmitBody, 0, fun _ => failedStatusCall, fun _ => 0,
   .ok 200 sampleFetchBody, 0⟩

/-- An environment whose fetch response has none of the expected keys. -/
def envBadFetch : Env :=
  ⟨.ok 200 sampleSubmitBody, 0, fun _ => doneCall, fun _ => 0,
   .ok 200 (.obj []), 0⟩

/-- An environment whose submit response lacks a `request_id`. -/
def envNoRequestId : Env :=
  ⟨.ok 200 (.obj []), 0, fun _ => doneCall, fun _ => 0,
   .ok 200 sampleFetchBody, 0⟩

/-- An environment whose submit call fails at the transport level. -/
def envSubmitDown : Env :=
  ⟨.transportError, 0, fun _ => doneCall, fun _ => 0,
   .ok 200 sampleFetchBody, 0⟩

theorem pollLoop_timeout_step (s : Nat → CallResult) (dur : Nat → Nat)
    (i elapsed : Nat) (h : TIMEOUT < elapsed) :
    pollLoop s dur i elapsed = ⟨[], [], .timeout elapsed⟩ := by
  rw [pollLoop]
  simp [h]

theorem not_complete_of_failed (st : Option Json)
    (h : isFailedOrError st = true) : isComplete st = false := by
  rcases st with _ | j
  · rfl
  · rcases j with _ | b | n | s | xs | kvs <;>
      simp [isFailedOrError, isComplete] at *
    rcases h with rfl | rfl <;> decide

theorem pollLoop_nonterminal_step (s : Nat → CallResult) (dur : Nat → Nat)
    (i elapsed : Nat) (h1 : elapsed ≤ TIMEOUT) (h2 : nonTerminal (s i) = true) :
    pollLoop s dur i elapsed =
      ⟨Event.status :: Event.sleep POLL_INTERVAL ::
         (pollLoop s dur (i + 1) (elapsed + dur i + POLL_INTERVAL)).events,
       elapsed :: (pollLoop s dur (i + 1) (elapsed + dur i + POLL_INTERVAL)).issues,
       (pollLoop s dur (i + 1) (elapsed + dur i + POLL_INTERVAL)).exit⟩ := by
  rw [pollLoop]
  have hne : ¬ TIMEOUT < elapsed := by omega
  cases hc : s i with
  | transportError => rw [hc] at h2; simp [nonTerminal] at h2
  | ok code body =>
    rw [hc] at h2
    simp only [nonTerminal] at h2
    by_cases hcode : 400 ≤ code ∧ code < 600
    · rw [if_pos hcode] at h2; exact absurd h2 (by simp)
    · rw [if_neg hcode] at h2
      cases hd : dictGet body "status" with
      | error e => rw [hd] at h2; simp at h2
      | ok st =>
        rw [hd] at h2
        simp only [Bool.and_eq_true, Bool.not_eq_true'] at h2
        simp [hne, hcode, hd, h2.1, h2.2]

theorem pollLoop_complete_step (s : Nat → CallResult) (dur : Nat → Nat)
    (i elapsed : Nat) (h1 : elapsed ≤ TIMEOUT) (h2 : completeCall (s i) = true) :
    pollLoop s dur i elapsed =
      ⟨[Event.status], [elapsed], .complete (elapsed + dur i)⟩ := by
  rw [pollLoop]
  have hne : ¬ TIMEOUT < elapsed := by omega
  cases hc : s i with
  | transportError => rw [hc] at h2; simp [completeCall] at h2
  | ok code body =>
    rw [hc] at h2
    simp only [completeCall] at h2
    by_cases hcode : 400 ≤ code ∧ code < 600
    · rw [if_pos hcode] at h2; exact absurd h2 (by simp)
    · rw [if_neg hcode] at h2
      cases hd : dictGet body "status" with
      | error e => rw [hd] at h2; simp at h2
      | ok st =>
        rw [hd] at h2
        simp only [] at h2
        simp [hne, hcode, hd, h2]

theorem pollLoop_failed_step (s : Nat → CallResult) (dur : Nat → Nat)
    (i elapsed : Nat) (h1 : elapsed ≤ TIMEOUT) (h2 : failedCall (s i) = true) :
    pollLoop s dur i elapsed =
      ⟨[Event.status], [elapsed], .jobFailed (elapsed + dur i)⟩ := by
  rw [pollLoop]
  have hne : ¬ TIMEOUT < elapsed := by omega
  cases hc : s i with
  | transportError => rw [hc] at h2; simp [failedCall] at h2
  | ok code body =>
    rw [hc] at h2
    simp only [failedCall] at h2
    by_cases hcode : 400 ≤ code ∧ code < 600
    · rw [if_pos hcode] at h2; exact absurd h2 (by simp)
    · rw [if_neg hcode] at h2
      cases hd : dictGet body "status" with
      | error e => rw [hd] at h2; simp at h2
      | ok st =>
        rw [hd] at h2
        simp only [] at h2
        simp [hne, hcode, hd, not_complete_of_failed st h2, h2]

theorem pollLoop_transport_step (s : Nat → CallResult) (dur : Nat → Nat)
    (i elapsed : Nat) (h1 : elapsed ≤ TIMEOUT) (h2 : s i = .transportError) :
    pollLoop s dur i elapsed =
      ⟨[Event.status], [elapsed], .httpError (elapsed + dur i)⟩ := by
  rw [pollLoop]
  have hne : ¬ TIMEOUT < elapsed := by omega
  simp [hne, h2]

theorem pollLoop_nonterminal_run (s : Nat → CallResult) (dur : Nat → Nat) :
    ∀ (m i elapsed : Nat),
      (∀ k, k < m → nonTerminal (s (i + k)) = true) →
      (∀ k, k < m → elapsedAt dur i elapsed k ≤ TIMEOUT) →
      pollLoop s dur i elapsed =
        ⟨(List.replicate m [Event.status, Event.sleep POLL_INTERVAL]).flatten ++
           (pollLoop s dur (i + m) (elapsedAt dur i elapsed m)).events,
         issuesOf dur i elapsed m ++
           (pollLoop s dur (i + m) (elapsedAt dur i elapsed m)).issues,
         (pollLoop s dur (i + m) (elapsedAt dur i elapsed m)).exit⟩ := by
  intro m
  induction m with
  | zero =>
    intro i elapsed _ _
    simp [elapsedAt, issuesOf]
  | succ n ih =>
    intro i elapsed hnt hck
    have h0 : elapsed ≤ TIMEOUT := hck 0 (Nat.succ_pos n)
    have hnt0 : nonTerminal (s i) = true := by
      have := hnt 0 (Nat.succ_pos n)
      simpa using this
    rw [pollLoop_nonterminal_step s dur i elapsed h0 hnt0]
    rw [ih (i + 1) (elapsed + dur i + POLL_INTERVAL)
      (fun k hk => by
        have := hnt (k + 1) (by omega)
        have harith : i + (k + 1) = i + 1 + k := by omega
        rwa [harith] at this)
      (fun k hk => hck (k + 1) (by omega))]
    have harith : i + 1 + n = i + (n + 1) := by omega
    simp [elapsedAt, issuesOf, harith, List.replicate_succ, List.flatten_cons]

theorem nonTerminal_of_string (c : CallResult)
    (h : nonTerminalString c = true) : nonTerminal c = true := by
  cases c with
  | transportError => simp [nonTerminalString] at h
  | ok code body =>
    simp only [nonTerminalString, nonTerminal] at *
    by_cases hc : 400 ≤ code ∧ code < 600
    · rw [if_pos hc] at h; exact absurd h (by simp)
    · rw [if_neg hc] at h ⊢
      cases hd : dictGet body "status" with
      | error e => rw [hd] at h; simp at h
      | ok st =>
        rw [hd] at h
        rcases st with _ | (_ | b | n | sk | xs | kvs)
        · simp at h
        · simp at h
        · simp at h
        · simp at h
        · simp at h ⊢
          simp [isComplete, isFailedOrError] at h ⊢
          tauto
        · simp at h
        · simp at h

theorem completeCall_of (code : Nat) (body : Json)
    (hc : ¬ (400 ≤ code ∧ code < 600))
    (hd : dictGet body "status" = .ok (some (.str "COMPLETE"))) :
    completeCall (.ok code body) = true := by
  simp only [completeCall]
  rw [if_neg hc, hd]
  simp [isComplete]

theorem failedCall_of (code : Nat) (body : Json) (sk : String)
    (hc : ¬ (400 ≤ code ∧ code < 600))
    (hd : dictGet body "status" = .ok (some (.str sk)))
    (hsk : sk = "FAILED" ∨ sk = "ERROR") :
    failedCall (.ok code body) = true := by
  simp only [failedCall]
  rw [if_neg hc, hd]
  rcases hsk with rfl | rfl <;> simp [isFailedOrError]

theorem pollLoop_httpcode_step (s : Nat → CallResult) (dur : Nat → Nat)
    (i elapsed code : Nat) (body : Json) (h1 : elapsed ≤ TIMEOUT)
    (hc : s i = .ok code body) (hcode : 400 ≤ code ∧ code < 600) :
    pollLoop s dur i elapsed =
      ⟨[Event.status], [elapsed], .httpError (elapsed + dur i)⟩ := by
  rw [pollLoop]
  simp [show ¬ TIMEOUT < elapsed from by omega, hc, hcode]

theorem pollLoop_attr_step (s : Nat → CallResult) (dur : Nat → Nat)
    (i elapsed code : Nat) (body : Json) (h1 : elapsed ≤ TIMEOUT)
    (hc : s i = .ok code body) (hcode : ¬ (400 ≤ code ∧ code < 600))
    (hd : dictGet body "status" = .error ()) :
    pollLoop s dur i elapsed =
      ⟨[Event.status], [elapsed], .attrError (elapsed + dur i)⟩ := by
  rw [pollLoop]
  simp [show ¬ TIMEOUT < elapsed from by omega, hc, hcode, hd]

theorem pollLoop_ok_step (s : Nat → CallResult) (dur : Nat → Nat)
    (i elapsed code : Nat) (body : Json) (st : Option Json)
    (h1 : elapsed ≤ TIMEOUT) (hc : s i = .ok code body)
    (hcode : ¬ (400 ≤ code ∧ code < 600))
    (hd : dictGet body "status" = .ok st) :
    pollLoop s dur i elapsed =
      if isComplete st then
        ⟨[Event.status], [elapsed], .complete (elapsed + dur i)⟩
      else if isFailedOrError st then
        ⟨[Event.status], [elapsed], .jobFailed (elapsed + dur i)⟩
      else
        ⟨Event.status :: Event.sleep POLL_INTERVAL ::
           (pollLoop s dur (i + 1) (elapsed + dur i + POLL_INTERVAL)).events,
         elapsed :: (pollLoop s dur (i + 1) (elapsed + dur i + POLL_INTERVAL)).issues,
         (pollLoop s dur (i + 1) (elapsed + dur i + POLL_INTERVAL)).exit⟩ := by
  rw [pollLoop]
  simp only [show ¬ TIMEOUT < elapsed from by omega, dite_false, dif_neg,
    not_false_eq_true]
  rw [hc]
  simp only [hd]
  rw [if_neg hcode]

theorem pollLoop_cases (s : Nat → CallResult) (dur : Nat → Nat)
    (i elapsed : Nat) :
    (TIMEOUT < elapsed ∧
      pollLoop s dur i elapsed = ⟨[], [], .timeout elapsed⟩) ∨
    (elapsed ≤ TIMEOUT ∧ ∃ ex, pollLoop s dur i elapsed =
      ⟨[Event.status], [elapsed], ex⟩ ∧ ∀ e, ex ≠ .timeout e) ∨
    (elapsed ≤ TIMEOUT ∧ pollLoop s dur i elapsed =
      ⟨Event.status :: Event.sleep POLL_INTERVAL ::
         (pollLoop s dur (i + 1) (elapsed + dur i + POLL_INTERVAL)).events,
       elapsed :: (pollLoop s dur (i + 1) (elapsed + dur i + POLL_INTERVAL)).issues,
       (pollLoop s dur (i + 1) (elapsed + dur i + POLL_INTERVAL)).exit⟩) := by
  by_cases he : TIMEOUT < elapsed
  · exact Or.inl ⟨he, pollLoop_timeout_step s dur i elapsed he⟩
  · have he' : elapsed ≤ TIMEOUT := by omega
    cases hc : s i with
    | transportError =>
      exact Or.inr (Or.inl ⟨he', _,
        pollLoop_transport_step s dur i elapsed he' hc, by intro e; simp⟩)
    | ok code body =>
      by_cases hcode : 400 ≤ code ∧ code < 600
      · exact Or.inr (Or.inl ⟨he', _,
          pollLoop_httpcode_step s dur i elapsed code body he' hc hcode,
          by intro e; simp⟩)
      · cases hd : dictGet body "status" with
        | error u =>
          cases u
          exact Or.inr (Or.inl ⟨he', _,
            pollLoop_attr_step s dur i elapsed code body he' hc hcode hd,
            by intro e; simp⟩)
        | ok st =>
          rw [pollLoop_ok_step s dur i elapsed code body st he' hc hcode hd]
          by_cases h1 : isComplete st = true
          · exact Or.inr (Or.inl ⟨he', _, by rw [if_pos h1], by intro e; simp⟩)
          · by_cases h2 : isFailedOrError st = true
            · exact Or.inr (Or.inl ⟨he', _,
                by rw [if_neg (by simp [h1]), if_pos h2], by intro e; simp⟩)
            · refine Or.inr (Or.inr ⟨he', ?_⟩)
              rw [if_neg (by simp [h1]), if_neg (by simp [h2])]

theorem pollLoop_invariants (s : Nat → CallResult) (dur : Nat → Nat) :
    ∀ fuel i elapsed, TIMEOUT + 1 - elapsed ≤ fuel →
      Event.fetch ∉ (pollLoop s dur i elapsed).events ∧
      (∀ t ∈ (pollLoop s dur i elapsed).issues, t ≤ TIMEOUT) ∧
      (∀ e, (pollLoop s dur i elapsed).exit = .timeout e →
        ∃ k, (pollLoop s dur i elapsed).events =
          (List.replicate k [Event.status, Event.sleep POLL_INTERVAL]).flatten) := by
  intro fuel
  induction fuel with
  | zero =>
    intro i elapsed hf
    have he : TIMEOUT < elapsed := by omega
    rw [pollLoop_timeout_step s dur i elapsed he]
    refine ⟨by simp, by simp, fun e _ => ⟨0, by simp⟩⟩
  | succ f ih =>
    intro i elapsed hf
    rcases pollLoop_cases s dur i elapsed with
      ⟨he, heq⟩ | ⟨he, ex, heq, hex⟩ | ⟨he, heq⟩
    · rw [heq]
      refine ⟨by simp, by simp, fun e _ => ⟨0, by simp⟩⟩
    · rw [heq]
      refine ⟨by simp, by simp [he], fun e h => absurd h (hex e)⟩
    · have hmeas : TIMEOUT + 1 - (elapsed + dur i + POLL_INTERVAL) ≤ f := by
        simp only [POLL_INTERVAL] at *
        omega
      obtain ⟨ih1, ih2, ih3⟩ := ih (i + 1) (elapsed + dur i + POLL_INTERVAL) hmeas
      rw [heq]
      refine ⟨by simp [ih1], ?_, ?_⟩
      · intro t ht
        rcases List.mem_cons.mp ht with rfl | ht
        · exact he
        · exact ih2 t ht
      · intro e h
        simp only at h
        obtain ⟨k, hk⟩ := ih3 e h
        refine ⟨k + 1, ?_⟩
        simp [List.replicate_succ, List.flatten_cons, hk]

theorem pollLoop_timeout_all (s : Nat → CallResult) (dur : Nat → Nat) (D : Nat)
    (hD : ∀ k, dur k ≤ D) :
    ∀ fuel i elapsed, TIMEOUT + 1 - elapsed ≤ fuel → elapsed ≤ TIMEOUT →
      (∀ k, elapsedAt dur i elapsed k ≤ TIMEOUT →
        nonTerminalString (s (i + k)) = true) →
      ∃ e, (pollLoop s dur i elapsed).exit = .timeout e ∧ TIMEOUT < e ∧
        e ≤ TIMEOUT + D + POLL_INTERVAL := by
  intro fuel
  induction fuel with
  | zero =>
    intro i elapsed hf he _
    exfalso
    omega
  | succ f ih =>
    intro i elapsed hf he hnt
    have hnt0 : nonTerminal (s i) = true := by
      apply nonTerminal_of_string
      have := hnt 0 (by simpa [elapsedAt] using he)
      simpa using this
    rw [pollLoop_nonterminal_step s dur i elapsed he hnt0]
    by_cases h : TIMEOUT < elapsed + dur i + POLL_INTERVAL
    · refine ⟨elapsed + dur i + POLL_INTERVAL, ?_, h, ?_⟩
      · simp [pollLoop_timeout_step s dur (i + 1) (elapsed + dur i + POLL_INTERVAL) h]
      · have := hD i
        omega
    · have ih' := ih (i + 1) (elapsed + dur i + POLL_INTERVAL)
        (by simp only [POLL_INTERVAL] at *; omega) (by omega)
        (fun k hk => by
          have harg : elapsedAt dur i elapsed (k + 1) ≤ TIMEOUT := by
            simpa [elapsedAt] using hk
          have := hnt (k + 1) harg
          have harith : i + (k + 1) = i + 1 + k := by omega
          rwa [harith] at this)
      simpa using ih'

theorem generate_image_eq_afterSubmit (key : Option String) (reqBody : Json)
    (env : Env) (prompt rid : Option Json) (scode : Nat) (sbody : Json)
    (hkey : truthyOptStr key = true)
    (hp : dictGet reqBody "prompt" = .ok prompt)
    (hpt : truthyOptJson prompt = true)
    (hs : env.submit = .ok scode sbody)
    (hsc : ¬ (400 ≤ scode ∧ scode < 600))
    (hr : dictGet sbody "request_id" = .ok rid)
    (hrt : truthyOptJson rid = true) :
    generate_image key reqBody env = afterSubmit env := by
  unfold generate_image
  rw [hkey]
  simp only [Bool.not_true, Bool.false_eq_true, if_false]
  rw [hp]
  simp only [hpt, Bool.not_true, Bool.false_eq_true, if_false]
  rw [hs]
  simp only [hsc, if_false]
  rw [hr]
  simp only [hrt, Bool.not_true, Bool.false_eq_true, if_false]

theorem afterSubmit_exit_eq (env : Env) :
    afterSubmit env =
      (let lr := pollLoop env.statusCalls env.statusDurations 0 0
       let issues := lr.issues.map (fun e => env.submitDuration + e)
       match lr.exit with
       | .timeout e =>
         ⟨504, errBody "Request timed out while waiting for model.",
          .submit :: lr.events, issues, some e, []⟩
       | .httpError e =>
         ⟨502, errBody "API request failed: <exception>",
          .submit :: lr.events, issues, some e, []⟩
       | .attrError e =>
         ⟨500, errBody "An internal server error occurred: <exception>",
          .submit :: lr.events, issues, some e, []⟩
       | .jobFailed e =>
         ⟨500, errBody "Model generation failed.",
          .submit :: lr.events, issues, some e, []⟩
       | .complete e =>
         let fr := fetchStage env.fetch
         ⟨fr.1, fr.2.1, .submit :: lr.events ++ [.fetch], issues, some e,
          fr.2.2⟩) := rfl

theorem afterSubmit_timeout (env : Env) (e : Nat)
    (h : (pollLoop env.statusCalls env.statusDurations 0 0).exit = .timeout e) :
    afterSubmit env =
      ⟨504, errBody "Request timed out while waiting for model.",
       Event.submit :: (pollLoop env.statusCalls env.statusDurations 0 0).events,
       (pollLoop env.statusCalls env.statusDurations 0 0).issues.map
         (fun x => env.submitDuration + x),
       some e, []⟩ := by
  rw [afterSubmit_exit_eq]
  simp only [h]

theorem afterSubmit_jobFailed (env : Env) (e : Nat)
    (h : (pollLoop env.statusCalls env.statusDurations 0 0).exit = .jobFailed e) :
    afterSubmit env =
      ⟨500, errBody "Model generation failed.",
       Event.submit :: (pollLoop env.statusCalls env.statusDurations 0 0).events,
       (pollLoop env.statusCalls env.statusDurations 0 0).issues.map
         (fun x => env.submitDuration + x),
       some e, []⟩ := by
  rw [afterSubmit_exit_eq]
  simp only [h]

theorem afterSubmit_httpError (env : Env) (e : Nat)
    (h : (pollLoop env.statusCalls env.statusDurations 0 0).exit = .httpError e) :
    afterSubmit env =
      ⟨502, errBody "API request failed: <exception>",
       Event.submit :: (pollLoop env.statusCalls env.statusDurations 0 0).events,
       (pollLoop env.statusCalls env.statusDurations 0 0).issues.map
         (fun x => env.submitDuration + x),
       some e, []⟩ := by
  rw [afterSubmit_exit_eq]
  simp only [h]

theorem afterSubmit_attrError (env : Env) (e : Nat)
    (h : (pollLoop env.statusCalls env.statusDurations 0 0).exit =
      .attrError e) :
    afterSubmit env =
      ⟨500, errBody "An internal server error occurred: <exception>",
       Event.submit :: (pollLoop env.statusCalls env.statusDurations 0 0).events,
       (pollLoop env.statusCalls env.statusDurations 0 0).issues.map
         (fun x => env.submitDuration + x),
       some e, []⟩ := by
  rw [afterSubmit_exit_eq]
  simp only [h]

theorem afterSubmit_complete (env : Env) (e : Nat)
    (h : (pollLoop env.statusCalls env.statusDurations 0 0).exit = .complete e) :
    afterSubmit env =
      ⟨(fetchStage env.fetch).1, (fetchStage env.fetch).2.1,
       Event.submit ::
         (pollLoop env.statusCalls env.statusDurations 0 0).events ++ [Event.fetch],
       (pollLoop env.statusCalls env.statusDurations 0 0).issues.map
         (fun x => env.submitDuration + x),
       some e, (fetchStage env.fetch).2.2⟩ := by
  rw [afterSubmit_exit_eq]
  simp only [h]

theorem countEvent_append (ev : Event) (l1 l2 : List Event) :
    countEvent ev (l1 ++ l2) = countEvent ev l1 + countEvent ev l2 := by
  induction l1 with
  | nil => simp [countEvent]
  | cons x xs ih => simp [countEvent, ih]; omega

theorem countEvent_flatten_replicate (ev : Event) (n : Nat) (l : List Event) :
    countEvent ev ((List.replicate n l).flatten) = n * countEvent ev l := by
  induction n with
  | zero => simp [countEvent]
  | succ m ih =>
    rw [List.replicate_succ, List.flatten_cons, countEvent_append, ih,
      Nat.succ_mul]
    omega

theorem fetch_not_mem_flatten_replicate (n : Nat) :
    Event.fetch ∉
      (List.replicate n [Event.status, Event.sleep POLL_INTERVAL]).flatten := by
  induction n with
  | zero => simp
  | succ m ih => simp [List.replicate_succ, List.flatten_cons, ih]

theorem fetchStage_taxonomy (fetch : CallResult) :
    ((fetchStage fetch).1 = 200 ∧
      ∃ u, (fetchStage fetch).2.1 = Json.obj [("imageUrl", u)]) ∨
    (((fetchStage fetch).1 = 500 ∨ (fetchStage fetch).1 = 502) ∧
      ∃ msg, (fetchStage fetch).2.1 = errBody msg) := by
  cases fetch with
  | transportError =>
    exact Or.inr ⟨Or.inr rfl, "API request failed: <exception>", rfl⟩
  | ok code body =>
    by_cases hc : 400 ≤ code ∧ code < 600
    · refine Or.inr ⟨Or.inr ?_, "API request failed: <exception>", ?_⟩ <;>
        simp [fetchStage, hc]
    · cases he : extractImageUrl body with
      | some u => refine Or.inl ⟨?_, u, ?_⟩ <;> simp [fetchStage, hc, he]
      | none =>
        refine Or.inr ⟨Or.inl ?_,
          "Could not parse image URL from model response.", ?_⟩ <;>
          simp [fetchStage, hc, he]

theorem afterSubmit_taxonomy (env : Env) :
    ((afterSubmit env).statusCode = 200 ∧
      ∃ u, (afterSubmit env).body = Json.obj [("imageUrl", u)]) ∨
    (((afterSubmit env).statusCode = 500 ∨ (afterSubmit env).statusCode = 502 ∨
        (afterSubmit env).statusCode = 504) ∧
      ∃ msg, (afterSubmit env).body = errBody msg) := by
  cases hex : (pollLoop env.statusCalls env.statusDurations 0 0).exit with
  | timeout e =>
    rw [afterSubmit_timeout env e hex]
    exact Or.inr ⟨Or.inr (Or.inr rfl), _, rfl⟩
  | httpError e =>
    rw [afterSubmit_exit_eq]
    simp only [hex]
    exact Or.inr ⟨by simp, _, rfl⟩
  | attrError e =>
    rw [afterSubmit_exit_eq]
    simp only [hex]
    exact Or.inr ⟨by simp, _, rfl⟩
  | jobFailed e =>
    rw [afterSubmit_jobFailed env e hex]
    exact Or.inr ⟨Or.inl rfl, _, rfl⟩
  | complete e =>
    rw [afterSubmit_complete env e hex]
    rcases fetchStage_taxonomy env.fetch with ⟨h1, u, h2⟩ | ⟨h1, msg, h2⟩
    · exact Or.inl ⟨h1, u, h2⟩
    · refine Or.inr ⟨?_, msg, h2⟩
      rcases h1 with h | h
      · exact Or.inl h
      · exact Or.inr (Or.inl h)

theorem afterSubmit_issues (env : Env) :
    (afterSubmit env).issues =
      (pollLoop env.statusCalls env.statusDurations 0 0).issues.map
        (fun e => env.submitDuration + e) := by
  cases hex : (pollLoop env.statusCalls env.statusDurations 0 0).exit <;>
    (rw [afterSubmit_exit_eq]; simp only [hex])

theorem gen_cases (key : Option String) (reqBody : Json) (env : Env) :
    generate_image key reqBody env =
        ⟨500, errBody "Server is missing MODEL_ACCESS_KEY environment variable.",
         [], [], none, []⟩ ∨
      generate_image key reqBody env =
        ⟨500, errBody "An internal server error occurred: <exception>",
         [], [], none, []⟩ ∨
      generate_image key reqBody env =
        ⟨400, errBody "No prompt provided.", [], [], none, []⟩ ∨
      generate_image key reqBody env =
        ⟨502, errBody "API request failed: <exception>",
         [Event.submit], [], none, []⟩ ∨
      generate_image key reqBody env =
        ⟨500, errBody "An internal server error occurred: <exception>",
         [Event.submit], [], none, []⟩ ∨
      generate_image key reqBody env =
        ⟨500, errBody "Failed to submit job to DO.",
         [Event.submit], [], none, []⟩ ∨
      generate_image key reqBody env = afterSubmit env := by
  cases hkey : truthyOptStr key with
  | false => exact Or.inl (by simp [generate_image, hkey])
  | true =>
    cases hp : dictGet reqBody "prompt" with
    | error u =>
      cases u
      exact Or.inr (Or.inl (by simp [generate_image, hkey, hp]))
    | ok prompt =>
      cases hpt : truthyOptJson prompt with
      | false =>
        exact Or.inr (Or.inr (Or.inl (by simp [generate_image, hkey, hp, hpt])))
      | true =>
        cases hs : env.submit with
        | transportError =>
          exact Or.inr (Or.inr (Or.inr (Or.inl
            (by simp [generate_image, hkey, hp, hpt, hs]))))
        | ok scode sbody =>
          by_cases hsc : 400 ≤ scode ∧ scode < 600
          · exact Or.inr (Or.inr (Or.inr (Or.inl
              (by simp [generate_image, hkey, hp, hpt, hs, hsc]))))
          · cases hr : dictGet sbody "request_id" with
            | error u =>
              cases u
              exact Or.inr (Or.inr (Or.inr (Or.inr (Or.inl
                (by simp [generate_image, hkey, hp, hpt, hs, hsc, hr])))))
            | ok rid =>
              cases hrt : truthyOptJson rid with
              | false =>
                exact Or.inr (Or.inr (Or.inr (Or.inr (Or.inr (Or.inl
                  (by simp [generate_image, hkey, hp, hpt, hs, hsc, hr, hrt]))))))
              | true =>
                exact Or.inr (Or.inr (Or.inr (Or.inr (Or.inr (Or.inr
                  (by simp [generate_image, hkey, hp, hpt, hs, hsc, hr, hrt]))))))

theorem map_shift_cancel (l : List Nat) (c : Nat) :
    (l.map (fun e => c + e)).map (fun t => t - c) = l := by
  rw [List.map_map]
  have h : ((fun t => t - c) ∘ fun e => c + e) = fun e => e := by
    funext e
    simp
  rw [h]
  simp

theorem afterSubmit_submitDuration (sub : CallResult) (sd d : Nat)
    (sc : Nat → CallResult) (sdur : Nat → Nat) (f : CallResult) (fd : Nat) :
    (afterSubmit ⟨sub, d, sc, sdur, f, fd⟩).statusCode =
      (afterSubmit ⟨sub, sd, sc, sdur, f, fd⟩).statusCode ∧
    (afterSubmit ⟨sub, d, sc, sdur, f, fd⟩).body =
      (afterSubmit ⟨sub, sd, sc, sdur, f, fd⟩).body ∧
    (afterSubmit ⟨sub, d, sc, sdur, f, fd⟩).events =
      (afterSubmit ⟨sub, sd, sc, sdur, f, fd⟩).events ∧
    (afterSubmit ⟨sub, d, sc, sdur, f, fd⟩).issues.map (fun t => t - d) =
      (afterSubmit ⟨sub, sd, sc, sdur, f, fd⟩).issues.map (fun t => t - sd) := by
  refine ⟨?_, ?_, ?_, ?_⟩ <;>
    cases hex : (pollLoop sc sdur 0 0).exit <;>
      simp [afterSubmit_exit_eq, hex, map_shift_cancel, Nat.add_sub_cancel_left]

/-- Claim C6: when the server credential `MODEL_ACCESS_KEY` is absent, the
handler replies HTTP 500 with a JSON error body and performs no outbound
call at all (no submit, no status poll, no fetch). -/
theorem claim_C6_missing_credential (reqBody : Json) (env : Env) :
    generate_image none reqBody env =
      ⟨500, errBody "Server is missing MODEL_ACCESS_KEY environment variable.",
       [], [], none, []⟩ := rfl

/-- Claim C7: with the credential configured, a request whose `prompt` field
is missing or the empty string is answered HTTP 400 with a JSON error body,
and no outbound call is performed. -/
theorem claim_C7_bad_prompt (key : Option String) (kvs : List (String × Json))
    (env : Env) (hkey : truthyOptStr key = true)
    (hprompt : kvs.lookup "prompt" = none ∨
      kvs.lookup "prompt" = some (.str "")) :
    generate_image key (.obj kvs) env =
      ⟨400, errBody "No prompt provided.", [], [], none, []⟩ := by
  unfold generate_image
  rw [hkey]
  simp only [Bool.not_true, Bool.false_eq_true, if_false]
  rcases hprompt with h | h <;> simp [dictGet, h, truthyOptJson, Json.truthy]

/-- Witness for C7: concrete request with an empty prompt. -/
theorem claim_C7_bad_prompt_witness :
    truthyOptStr sampleKey = true ∧
    ([("prompt", Json.str "")] : List (String × Json)).lookup "prompt" =
      some (Json.str "") ∧
    generate_image sampleKey (.obj [("prompt", Json.str "")]) envComplete =
      ⟨400, errBody "No prompt provided.", [], [], none, []⟩ :=
  ⟨by decide, rfl,
    claim_C7_bad_prompt sampleKey [("prompt", Json.str "")] envComplete
      (by decide) (Or.inr rfl)⟩

/-- Claim C8: when the submit call returns a non-error HTTP status whose
body lacks a (non-empty) `request_id`, the handler replies HTTP 500 with a
JSON error body, and performs neither a status poll nor a fetch. -/
theorem claim_C8_missing_request_id (key : Option String) (reqBody : Json)
    (env : Env) (prompt : Option Json) (scode : Nat)
    (skvs : List (String × Json))
    (hkey : truthyOptStr key = true)
    (hp : dictGet reqBody "prompt" = .ok prompt)
    (hpt : truthyOptJson prompt = true)
    (hs : env.submit = .ok scode (.obj skvs))
    (hscode : scode < 400)
    (hrid : skvs.lookup "request_id" = none ∨
      skvs.lookup "request_id" = some (.str "")) :
    generate_image key reqBody env =
      ⟨500, errBody "Failed to submit job to DO.",
       [Event.submit], [], none, []⟩ := by
  unfold generate_image
  rw [hkey]
  simp only [Bool.not_true, Bool.false_eq_true, if_false]
  rw [hp]
  simp only [hpt, Bool.not_true, Bool.false_eq_true, if_false]
  rw [hs]
  have hsc : ¬ (400 ≤ scode ∧ scode < 600) := by omega
  simp only [hsc, if_false]
  rcases hrid with h | h <;> simp [dictGet, h, truthyOptJson, Json.truthy]

/-- Witness for C8: concrete submit response with no `request_id`. -/
theorem claim_C8_missing_request_id_witness :
    truthyOptStr sampleKey = true ∧
    envNoRequestId.submit = .ok 200 (.obj []) ∧
    (([] : List (String × Json)).lookup "request_id" = none) ∧
    generate_image sampleKey sampleReq envNoRequestId =
      ⟨500, errBody "Failed to submit job to DO.",
       [Event.submit], [], none, []⟩ :=
  ⟨by decide, rfl, rfl,
    claim_C8_missing_request_id sampleKey sampleReq envNoRequestId
      (some (Json.str "a cat on a laptop")) 200 []
      (by decide) rfl (by decide) rfl (by decide) (Or.inl rfl)⟩

/-- Claim C1: for a request that reaches the fetch stage, a fetch response
whose body is the well-formed nested structure
`result → output → images → (first element with url u)` (the first image
object may carry more keys, and more images may follow) yields HTTP 200
with body exactly the JSON object with the single field `imageUrl` set to
the `url` of the first element of the `images` list. -/
theorem claim_C1_wellformed_fetch (key : Option String) (reqBody : Json)
    (env : Env) (prompt rid : Option Json) (scode : Nat) (sbody : Json)
    (e fcode : Nat) (u : String)
    (fkvs rkvs okvs ukvs : List (String × Json)) (rest : List Json)
    (hkey : truthyOptStr key = true)
    (hp : dictGet reqBody "prompt" = .ok prompt)
    (hpt : truthyOptJson prompt = true)
    (hs : env.submit = .ok scode sbody)
    (hsc : ¬ (400 ≤ scode ∧ scode < 600))
    (hr : dictGet sbody "request_id" = .ok rid)
    (hrt : truthyOptJson rid = true)
    (hloop : (pollLoop env.statusCalls env.statusDurations 0 0).exit =
      .complete e)
    (hf : env.fetch = .ok fcode (.obj fkvs))
    (hfc : ¬ (400 ≤ fcode ∧ fcode < 600))
    (h1 : fkvs.lookup "result" = some (.obj rkvs))
    (h2 : rkvs.lookup "output" = some (.obj okvs))
    (h3 : okvs.lookup "images" = some (.arr (Json.obj ukvs :: rest)))
    (h4 : ukvs.lookup "url" = some (.str u)) :
    (generate_image key reqBody env).statusCode = 200 ∧
    (generate_image key reqBody env).body =
      Json.obj [("imageUrl", Json.str u)] := by
  rw [generate_image_eq_afterSubmit key reqBody env prompt rid scode sbody
    hkey hp hpt hs hsc hr hrt]
  rw [afterSubmit_complete env e hloop]
  have hfs : fetchStage env.fetch =
      (200, Json.obj [("imageUrl", Json.str u)], []) := by
    rw [hf]
    simp [fetchStage, hfc, extractImageUrl, pySubscriptStr, pyIndexZero,
      h1, h2, h3, h4]
  exact ⟨by rw [hfs], by rw [hfs]⟩

/-- Witness for C1: concrete run at a well-formed fetch response. -/
theorem claim_C1_wellformed_fetch_witness :
    (pollLoop envComplete.statusCalls envComplete.statusDurations 0 0).exit =
      .complete 0 ∧
    envComplete.fetch = .ok 200 sampleFetchBody ∧
    (generate_image sampleKey sampleReq envComplete).statusCode = 200 ∧
    (generate_image sampleKey sampleReq envComplete).body =
      Json.obj [("imageUrl", Json.str "https://x/y.png")] := by
  have hloop : (pollLoop envComplete.statusCalls
      envComplete.statusDurations 0 0).exit = .complete 0 := by
    rw [pollLoop_complete_step envComplete.statusCalls
      envComplete.statusDurations 0 0 (by decide) (by decide)]
    rfl
  have hmain := claim_C1_wellformed_fetch sampleKey sampleReq envComplete
    (some (Json.str "a cat on a laptop")) (some (Json.str "req-1"))
    200 sampleSubmitBody 0 200 "https://x/y.png"
    [("result", Json.obj [("output", Json.obj [("images",
      Json.arr [Json.obj [("url", Json.str "https://x/y.png")]])])])]
    [("output", Json.obj [("images",
      Json.arr [Json.obj [("url", Json.str "https://x/y.png")]])])]
    [("images", Json.arr [Json.obj [("url", Json.str "https://x/y.png")]])]
    [("url", Json.str "https://x/y.png")] []
    (by decide) rfl (by decide) rfl (by decide) rfl (by decide)
    hloop rfl (by decide) rfl rfl rfl rfl
  exact ⟨hloop, rfl, hmain.1, hmain.2⟩

/-- Claim C5: for a request that reaches the fetch stage, a fetch response
whose body does not match the nested path
`result → output → images → first element → url` is answered with the
parse-error response HTTP 500 and a JSON error body, instead of an
unhandled exception escaping the handler; and the raw unexpected
structure is printed to the server log (line 246 of the source). -/
theorem claim_C5_unparseable_fetch (key : Option String) (reqBody : Json)
    (env : Env) (prompt rid : Option Json) (scode : Nat) (sbody : Json)
    (e fcode : Nat) (fbody : Json)
    (hkey : truthyOptStr key = true)
    (hp : dictGet reqBody "prompt" = .ok prompt)
    (hpt : truthyOptJson prompt = true)
    (hs : env.submit = .ok scode sbody)
    (hsc : ¬ (400 ≤ scode ∧ scode < 600))
    (hr : dictGet sbody "request_id" = .ok rid)
    (hrt : truthyOptJson rid = true)
    (hloop : (pollLoop env.statusCalls env.statusDurations 0 0).exit =
      .complete e)
    (hf : env.fetch = .ok fcode fbody)
    (hfc : ¬ (400 ≤ fcode ∧ fcode < 600))
    (hbad : extractImageUrl fbody = none) :
    (generate_image key reqBody env).statusCode = 500 ∧
    (generate_image key reqBody env).body =
      errBody "Could not parse image URL from model response." ∧
    (generate_image key reqBody env).logged = [fbody] := by
  rw [generate_image_eq_afterSubmit key reqBody env prompt rid scode sbody
    hkey hp hpt hs hsc hr hrt]
  rw [afterSubmit_complete env e hloop]
  have hfs : fetchStage env.fetch =
      (500, errBody "Could not parse image URL from model response.",
       [fbody]) := by
    rw [hf]
    simp [fetchStage, hfc, hbad]
  exact ⟨by rw [hfs], by rw [hfs], by rw [hfs]⟩

/-- Witness for C5: concrete run with a fetch body missing every key. -/
theorem claim_C5_unparseable_fetch_witness :
    extractImageUrl (Json.obj []) = none ∧
    envBadFetch.fetch = .ok 200 (Json.obj []) ∧
    (generate_image sampleKey sampleReq envBadFetch).statusCode = 500 ∧
    (generate_image sampleKey sampleReq envBadFetch).body =
      errBody "Could not parse image URL from model response." ∧
    (generate_image sampleKey sampleReq envBadFetch).logged =
      [Json.obj []] := by
  have hloop : (pollLoop envBadFetch.statusCalls
      envBadFetch.statusDurations 0 0).exit = .complete 0 := by
    rw [pollLoop_complete_step envBadFetch.statusCalls
      envBadFetch.statusDurations 0 0 (by decide) (by decide)]
    rfl
  have hmain := claim_C5_unparseable_fetch sampleKey sampleReq envBadFetch
    (some (Json.str "a cat on a laptop")) (some (Json.str "req-1"))
    200 sampleSubmitBody 0 200 (Json.obj [])
    (by decide) rfl (by decide) rfl (by decide) rfl (by decide)
    hloop rfl (by decide) rfl
  exact ⟨rfl, rfl, hmain.1, hmain.2.1, hmain.2.2⟩

/-- Claim C2: for a request that reaches the polling stage, a sequence of
`n` poll responses with a non-terminal status string followed by one with
status `COMPLETE`, with every deadline check inside the timeout, makes the
handler perform exactly `n + 1` status calls and then exactly one fetch,
sleeping `POLL_INTERVAL` after each non-terminal status before the next
status call (the full trace is `submit`, then `n` times status-then-sleep,
then the final status, then the fetch). -/
theorem claim_C2_poll_sequence (key : Option String) (reqBody : Json)
    (env : Env) (prompt rid : Option Json) (scode : Nat) (sbody : Json)
    (n : Nat)
    (hkey : truthyOptStr key = true)
    (hp : dictGet reqBody "prompt" = .ok prompt)
    (hpt : truthyOptJson prompt = true)
    (hs : env.submit = .ok scode sbody)
    (hsc : ¬ (400 ≤ scode ∧ scode < 600))
    (hr : dictGet sbody "request_id" = .ok rid)
    (hrt : truthyOptJson rid = true)
    (hnt : ∀ k, k < n → nonTerminalString (env.statusCalls k) = true)
    (hcomp : completeCall (env.statusCalls n) = true)
    (hck : ∀ k, k ≤ n → elapsedAt env.statusDurations 0 0 k ≤ TIMEOUT) :
    (generate_image key reqBody env).events =
      Event.submit ::
        ((List.replicate n [Event.status, Event.sleep POLL_INTERVAL]).flatten ++
          [Event.status, Event.fetch]) ∧
    countEvent Event.status (generate_image key reqBody env).events = n + 1 ∧
    countEvent Event.fetch (generate_image key reqBody env).events = 1 := by
  have hloop : pollLoop env.statusCalls env.statusDurations 0 0 =
      ⟨(List.replicate n [Event.status, Event.sleep POLL_INTERVAL]).flatten ++
         [Event.status],
       issuesOf env.statusDurations 0 0 n ++
         [elapsedAt env.statusDurations 0 0 n],
       .complete (elapsedAt env.statusDurations 0 0 n +
         env.statusDurations n)⟩ := by
    rw [pollLoop_nonterminal_run env.statusCalls env.statusDurations n 0 0
      (fun k hk => by simpa using nonTerminal_of_string _ (hnt k hk))
      (fun k hk => hck k (Nat.le_of_lt hk))]
    rw [pollLoop_complete_step env.statusCalls env.statusDurations (0 + n)
      (elapsedAt env.statusDurations 0 0 n) (hck n (Nat.le_refl n))
      (by simpa using hcomp)]
    simp
  rw [generate_image_eq_afterSubmit key reqBody env prompt rid scode sbody
    hkey hp hpt hs hsc hr hrt]
  rw [afterSubmit_complete env
    (elapsedAt env.statusDurations 0 0 n + env.statusDurations n)
    (by rw [hloop])]
  rw [hloop]
  refine ⟨by simp, ?_, ?_⟩ <;>
    simp [countEvent, countEvent_append, countEvent_flatten_replicate]

/-- Witness for C2: one pending status, then COMPLETE, at durations 0. -/
theorem claim_C2_poll_sequence_witness :
    (∀ k, k < 1 → nonTerminalString (envOnePending.statusCalls k) = true) ∧
    completeCall (envOnePending.statusCalls 1) = true ∧
    (∀ k, k ≤ 1 → elapsedAt envOnePending.statusDurations 0 0 k ≤ TIMEOUT) ∧
    (generate_image sampleKey sampleReq envOnePending).events =
      Event.submit ::
        ((List.replicate 1 [Event.status, Event.sleep POLL_INTERVAL]).flatten ++
          [Event.status, Event.fetch]) ∧
    countEvent Event.status
      (generate_image sampleKey sampleReq envOnePending).events = 2 ∧
    countEvent Event.fetch
      (generate_image sampleKey sampleReq envOnePending).events = 1 := by
  have hmain := claim_C2_poll_sequence sampleKey sampleReq envOnePending
    (some (Json.str "a cat on a laptop")) (some (Json.str "req-1"))
    200 sampleSubmitBody 1
    (by decide) rfl (by decide) rfl (by decide) rfl (by decide)
    (by decide) (by decide) (by decide)
  exact ⟨by decide, by decide, by decide, hmain.1, hmain.2.1, hmain.2.2⟩

/-- Claim C4: for a request that reaches the polling stage, if the first
`m` poll responses carry non-terminal status strings (with every deadline
check inside the timeout) and response `m` carries status `FAILED` or
`ERROR`, the handler performs no further status call after that response,
replies HTTP 500 with a JSON error body, and never issues the fetch call. -/
theorem claim_C4_terminal_failure (key : Option String) (reqBody : Json)
    (env : Env) (prompt rid : Option Json) (scode : Nat) (sbody : Json)
    (m : Nat)
    (hkey : truthyOptStr key = true)
    (hp : dictGet reqBody "prompt" = .ok prompt)
    (hpt : truthyOptJson prompt = true)
    (hs : env.submit = .ok scode sbody)
    (hsc : ¬ (400 ≤ scode ∧ scode < 600))
    (hr : dictGet sbody "request_id" = .ok rid)
    (hrt : truthyOptJson rid = true)
    (hnt : ∀ k, k < m → nonTerminalString (env.statusCalls k) = true)
    (hfail : failedCall (env.statusCalls m) = true)
    (hck : ∀ k, k ≤ m → elapsedAt env.statusDurations 0 0 k ≤ TIMEOUT) :
    (generate_image key reqBody env).statusCode = 500 ∧
    (generate_image key reqBody env).body =
      errBody "Model generation failed." ∧
    (generate_image key reqBody env).events =
      Event.submit ::
        ((List.replicate m [Event.status, Event.sleep POLL_INTERVAL]).flatten ++
          [Event.status]) ∧
    countEvent Event.status (generate_image key reqBody env).events = m + 1 ∧
    Event.fetch ∉ (generate_image key reqBody env).events := by
  have hloop : pollLoop env.statusCalls env.statusDurations 0 0 =
      ⟨(List.replicate m [Event.status, Event.sleep POLL_INTERVAL]).flatten ++
         [Event.status],
       issuesOf env.statusDurations 0 0 m ++
         [elapsedAt env.statusDurations 0 0 m],
       .jobFailed (elapsedAt env.statusDurations 0 0 m +
         env.statusDurations m)⟩ := by
    rw [pollLoop_nonterminal_run env.statusCalls env.statusDurations m 0 0
      (fun k hk => by simpa using nonTerminal_of_string _ (hnt k hk))
      (fun k hk => hck k (Nat.le_of_lt hk))]
    rw [pollLoop_failed_step env.statusCalls env.statusDurations (0 + m)
      (elapsedAt env.statusDurations 0 0 m) (hck m (Nat.le_refl m))
      (by simpa using hfail)]
    simp
  rw [generate_image_eq_afterSubmit key reqBody env prompt rid scode sbody
    hkey hp hpt hs hsc hr hrt]
  rw [afterSubmit_jobFailed env
    (elapsedAt env.statusDurations 0 0 m + env.statusDurations m)
    (by rw [hloop])]
  rw [hloop]
  refine ⟨rfl, rfl, by simp, ?_, ?_⟩
  · simp [countEvent, countEvent_append, countEvent_flatten_replicate]
  · simp [fetch_not_mem_flatten_replicate]

/-- Witness for C4: the first poll response reports FAILED. -/
theorem claim_C4_terminal_failure_witness :
    failedCall (envFailed.statusCalls 0) = true ∧
    (generate_image sampleKey sampleReq envFailed).statusCode = 500 ∧
    (generate_image sampleKey sampleReq envFailed).body =
      errBody "Model generation failed." ∧
    (generate_image sampleKey sampleReq envFailed).events =
      [Event.submit, Event.status] ∧
    countEvent Event.status
      (generate_image sampleKey sampleReq envFailed).events = 1 ∧
    Event.fetch ∉ (generate_image sampleKey sampleReq envFailed).events := by
  have hmain := claim_C4_terminal_failure sampleKey sampleReq envFailed
    (some (Json.str "a cat on a laptop")) (some (Json.str "req-1"))
    200 sampleSubmitBody 0
    (by decide) rfl (by decide) rfl (by decide) rfl (by decide)
    (by decide) (by decide) (by decide)
  refine ⟨by decide, hmain.1, hmain.2.1, ?_, hmain.2.2.2.1, hmain.2.2.2.2⟩
  have h := hmain.2.2.1
  simpa using h

/-- Claim C3: for a request that reaches the polling stage, if every poll
response delivered while the deadline check passes carries a non-terminal
status string, the handler replies HTTP 504 with a JSON error body, issues
no fetch call, and the loop clock at the moment it gives up exceeds the
120-unit window (measured from just after submit) without exceeding it by
more than one poll round (a status-call duration bound plus the sleep). -/
theorem claim_C3_timeout (key : Option String) (reqBody : Json)
    (env : Env) (prompt rid : Option Json) (scode : Nat) (sbody : Json)
    (D : Nat)
    (hkey : truthyOptStr key = true)
    (hp : dictGet reqBody "prompt" = .ok prompt)
    (hpt : truthyOptJson prompt = true)
    (hs : env.submit = .ok scode sbody)
    (hsc : ¬ (400 ≤ scode ∧ scode < 600))
    (hr : dictGet sbody "request_id" = .ok rid)
    (hrt : truthyOptJson rid = true)
    (hD : ∀ k, env.statusDurations k ≤ D)
    (hnt : ∀ k, elapsedAt env.statusDurations 0 0 k ≤ TIMEOUT →
      nonTerminalString (env.statusCalls k) = true) :
    (generate_image key reqBody env).statusCode = 504 ∧
    (generate_image key reqBody env).body =
      errBody "Request timed out while waiting for model." ∧
    Event.fetch ∉ (generate_image key reqBody env).events ∧
    ∃ e, (generate_image key reqBody env).exitElapsed = some e ∧
      TIMEOUT < e ∧ e ≤ TIMEOUT + D + POLL_INTERVAL := by
  obtain ⟨e, hex, he1, he2⟩ := pollLoop_timeout_all env.statusCalls
    env.statusDurations D hD (TIMEOUT + 1) 0 0 (by omega) (by omega)
    (fun k hk => by simpa using hnt k hk)
  rw [generate_image_eq_afterSubmit key reqBody env prompt rid scode sbody
    hkey hp hpt hs hsc hr hrt]
  rw [afterSubmit_timeout env e hex]
  refine ⟨rfl, rfl, ?_, e, rfl, he1, he2⟩
  have hinv := (pollLoop_invariants env.statusCalls env.statusDurations
    (TIMEOUT + 1) 0 0 (by omega)).1
  intro hmem
  rcases List.mem_cons.mp hmem with h | h
  · exact absurd h (by decide)
  · exact hinv h

/-- Witness for C3: every poll response stays pending forever. -/
theorem claim_C3_timeout_witness :
    (∀ k, envAllPending.statusDurations k ≤ 0) ∧
    (∀ k, elapsedAt envAllPending.statusDurations 0 0 k ≤ TIMEOUT →
      nonTerminalString (envAllPending.statusCalls k) = true) ∧
    (generate_image sampleKey sampleReq envAllPending).statusCode = 504 ∧
    (generate_image sampleKey sampleReq envAllPending).body =
      errBody "Request timed out while waiting for model." ∧
    Event.fetch ∉ (generate_image sampleKey sampleReq envAllPending).events ∧
    ∃ e, (generate_image sampleKey sampleReq envAllPending).exitElapsed =
        some e ∧
      TIMEOUT < e ∧ e ≤ TIMEOUT + 0 + POLL_INTERVAL := by
  have hmain := claim_C3_timeout sampleKey sampleReq envAllPending
    (some (Json.str "a cat on a laptop")) (some (Json.str "req-1"))
    200 sampleSubmitBody 0
    (by decide) rfl (by decide) rfl (by decide) rfl (by decide)
    (fun k => Nat.le_refl 0) (fun k hk => rfl)
  exact ⟨fun k => Nat.le_refl 0, fun k hk => rfl,
    hmain.1, hmain.2.1, hmain.2.2.1, hmain.2.2.2⟩

/-- Claim C9: every outcome of the handler is either HTTP 200 with an
`imageUrl` body or one of the taxonomy statuses 400/500/502/504 with a
JSON body carrying an `error` string (the handler is a total function of
its inputs, so no exception escapes and no stack trace reaches the
client); in particular a transport-level failure of the submit call, of
any status call reached within the deadline, or of the fetch call is
answered 502, and any other unexpected exception — every `AttributeError`
of the embedding, raised by `.get` when the client request body, the
submit response body, or a reached status response body is not a dict —
is answered by the generic server error HTTP 500. -/
theorem claim_C9_error_mapping :
    (∀ (key : Option String) (reqBody : Json) (env : Env),
      ((generate_image key reqBody env).statusCode = 200 ∧
        ∃ u, (generate_image key reqBody env).body =
          Json.obj [("imageUrl", u)]) ∨
      (((generate_image key reqBody env).statusCode = 400 ∨
        (generate_image key reqBody env).statusCode = 500 ∨
        (generate_image key reqBody env).statusCode = 502 ∨
        (generate_image key reqBody env).statusCode = 504) ∧
       ∃ msg, (generate_image key reqBody env).body = errBody msg)) ∧
    (∀ (key : Option String) (reqBody : Json) (env : Env)
       (prompt : Option Json),
      truthyOptStr key = true →
      dictGet reqBody "prompt" = .ok prompt →
      truthyOptJson prompt = true →
      env.submit = .transportError →
      generate_image key reqBody env =
        ⟨502, errBody "API request failed: <exception>",
         [Event.submit], [], none, []⟩) ∧
    (∀ (key : Option String) (reqBody : Json) (env : Env)
       (prompt rid : Option Json) (scode : Nat) (sbody : Json) (m : Nat),
      truthyOptStr key = true →
      dictGet reqBody "prompt" = .ok prompt →
      truthyOptJson prompt = true →
      env.submit = .ok scode sbody →
      ¬ (400 ≤ scode ∧ scode < 600) →
      dictGet sbody "request_id" = .ok rid →
      truthyOptJson rid = true →
      (∀ k, k < m → nonTerminalString (env.statusCalls k) = true) →
      env.statusCalls m = .transportError →
      (∀ k, k ≤ m → elapsedAt env.statusDurations 0 0 k ≤ TIMEOUT) →
      (generate_image key reqBody env).statusCode = 502 ∧
      (generate_image key reqBody env).body =
        errBody "API request failed: <exception>") ∧
    (∀ (key : Option String) (reqBody : Json) (env : Env)
       (prompt rid : Option Json) (scode : Nat) (sbody : Json) (e : Nat),
      truthyOptStr key = true →
      dictGet reqBody "prompt" = .ok prompt →
      truthyOptJson prompt = true →
      env.submit = .ok scode sbody →
      ¬ (400 ≤ scode ∧ scode < 600) →
      dictGet sbody "request_id" = .ok rid →
      truthyOptJson rid = true →
      (pollLoop env.statusCalls env.statusDurations 0 0).exit = .complete e →
      env.fetch = .transportError →
      (generate_image key reqBody env).statusCode = 502 ∧
      (generate_image key reqBody env).body =
        errBody "API request failed: <exception>") ∧
    (∀ (key : Option String) (reqBody : Json) (env : Env),
      truthyOptStr key = true →
      dictGet reqBody "prompt" = .error () →
      generate_image key reqBody env =
        ⟨500, errBody "An internal server error occurred: <exception>",
         [], [], none, []⟩) ∧
    (∀ (key : Option String) (reqBody : Json) (env : Env)
       (prompt : Option Json) (scode : Nat) (sbody : Json),
      truthyOptStr key = true →
      dictGet reqBody "prompt" = .ok prompt →
      truthyOptJson prompt = true →
      env.submit = .ok scode sbody →
      ¬ (400 ≤ scode ∧ scode < 600) →
      dictGet sbody "request_id" = .error () →
      generate_image key reqBody env =
        ⟨500, errBody "An internal server error occurred: <exception>",
         [Event.submit], [], none, []⟩) ∧
    (∀ (key : Option String) (reqBody : Json) (env : Env)
       (prompt rid : Option Json) (scode mcode : Nat) (sbody mbody : Json)
       (m : Nat),
      truthyOptStr key = true →
      dictGet reqBody "prompt" = .ok prompt →
      truthyOptJson prompt = true →
      env.submit = .ok scode sbody →
      ¬ (400 ≤ scode ∧ scode < 600) →
      dictGet sbody "request_id" = .ok rid →
      truthyOptJson rid = true →
      (∀ k, k < m → nonTerminalString (env.statusCalls k) = true) →
      env.statusCalls m = .ok mcode mbody →
      ¬ (400 ≤ mcode ∧ mcode < 600) →
      dictGet mbody "status" = .error () →
      (∀ k, k ≤ m → elapsedAt env.statusDurations 0 0 k ≤ TIMEOUT) →
      (generate_image key reqBody env).statusCode = 500 ∧
      (generate_image key reqBody env).body =
        errBody "An internal server error occurred: <exception>") := by
  refine ⟨?_, ?_, ?_, ?_, ?_, ?_, ?_⟩
  · intro key reqBody env
    rcases gen_cases key reqBody env with h | h | h | h | h | h | h
    · rw [h]; exact Or.inr ⟨Or.inr (Or.inl rfl), _, rfl⟩
    · rw [h]; exact Or.inr ⟨Or.inr (Or.inl rfl), _, rfl⟩
    · rw [h]; exact Or.inr ⟨Or.inl rfl, _, rfl⟩
    · rw [h]; exact Or.inr ⟨Or.inr (Or.inr (Or.inl rfl)), _, rfl⟩
    · rw [h]; exact Or.inr ⟨Or.inr (Or.inl rfl), _, rfl⟩
    · rw [h]; exact Or.inr ⟨Or.inr (Or.inl rfl), _, rfl⟩
    · rw [h]
      rcases afterSubmit_taxonomy env with ⟨h1, u, h2⟩ | ⟨h1, msg, h2⟩
      · exact Or.inl ⟨h1, u, h2⟩
      · refine Or.inr ⟨?_, msg, h2⟩
        rcases h1 with h1 | h1 | h1
        · exact Or.inr (Or.inl h1)
        · exact Or.inr (Or.inr (Or.inl h1))
        · exact Or.inr (Or.inr (Or.inr h1))
  · intro key reqBody env prompt hkey hp hpt hs
    unfold generate_image
    rw [hkey]
    simp only [Bool.not_true, Bool.false_eq_true, if_false]
    rw [hp]
    simp only [hpt, Bool.not_true, Bool.false_eq_true, if_false]
    rw [hs]
  · intro key reqBody env prompt rid scode sbody m
      hkey hp hpt hs hsc hr hrt hnt htr hck
    have hloop : pollLoop env.statusCalls env.statusDurations 0 0 =
        ⟨(List.replicate m [Event.status, Event.sleep POLL_INTERVAL]).flatten ++
           [Event.status],
         issuesOf env.statusDurations 0 0 m ++
           [elapsedAt env.statusDurations 0 0 m],
         .httpError (elapsedAt env.statusDurations 0 0 m +
           env.statusDurations m)⟩ := by
      rw [pollLoop_nonterminal_run env.statusCalls env.statusDurations m 0 0
        (fun k hk => by simpa using nonTerminal_of_string _ (hnt k hk))
        (fun k hk => hck k (Nat.le_of_lt hk))]
      rw [pollLoop_transport_step env.statusCalls env.statusDurations (0 + m)
        (elapsedAt env.statusDurations 0 0 m) (hck m (Nat.le_refl m))
        (by simpa using htr)]
      simp
    rw [generate_image_eq_afterSubmit key reqBody env prompt rid scode sbody
      hkey hp hpt hs hsc hr hrt]
    rw [afterSubmit_httpError env
      (elapsedAt env.statusDurations 0 0 m + env.statusDurations m)
      (by rw [hloop])]
    exact ⟨rfl, rfl⟩
  · intro key reqBody env prompt rid scode sbody e
      hkey hp hpt hs hsc hr hrt hloop hf
    rw [generate_image_eq_afterSubmit key reqBody env prompt rid scode sbody
      hkey hp hpt hs hsc hr hrt]
    rw [afterSubmit_complete env e hloop]
    have hfs : fetchStage env.fetch =
        (502, errBody "API request failed: <exception>", []) := by
      rw [hf]
      rfl
    exact ⟨by rw [hfs], by rw [hfs]⟩
  · intro key reqBody env hkey hp
    unfold generate_image
    rw [hkey]
    simp only [Bool.not_true, Bool.false_eq_true, if_false]
    rw [hp]
  · intro key reqBody env prompt scode sbody hkey hp hpt hs hsc hr
    unfold generate_image
    rw [hkey]
    simp only [Bool.not_true, Bool.false_eq_true, if_false]
    rw [hp]
    simp only [hpt, Bool.not_true, Bool.false_eq_true, if_false]
    rw [hs]
    simp only [hsc, if_false]
    rw [hr]
  · intro key reqBody env prompt rid scode mcode sbody mbody m
      hkey hp hpt hs hsc hr hrt hnt hm hmc hmd hck
    have hloop : pollLoop env.statusCalls env.statusDurations 0 0 =
        ⟨(List.replicate m [Event.status, Event.sleep POLL_INTERVAL]).flatten ++
           [Event.status],
         issuesOf env.statusDurations 0 0 m ++
           [elapsedAt env.statusDurations 0 0 m],
         .attrError (elapsedAt env.statusDurations 0 0 m +
           env.statusDurations m)⟩ := by
      rw [pollLoop_nonterminal_run env.statusCalls env.statusDurations m 0 0
        (fun k hk => by simpa using nonTerminal_of_string _ (hnt k hk))
        (fun k hk => hck k (Nat.le_of_lt hk))]
      rw [pollLoop_attr_step env.statusCalls env.statusDurations (0 + m)
        (elapsedAt env.statusDurations 0 0 m) mcode mbody
        (hck m (Nat.le_refl m)) (by simpa using hm) hmc hmd]
      simp
    rw [generate_image_eq_afterSubmit key reqBody env prompt rid scode sbody
      hkey hp hpt hs hsc hr hrt]
    rw [afterSubmit_attrError env
      (elapsedAt env.statusDurations 0 0 m + env.statusDurations m)
      (by rw [hloop])]
    exact ⟨rfl, rfl⟩

/-- Witness for C9: concrete run whose submit call fails at transport
level, answered 502. -/
theorem claim_C9_error_mapping_witness :
    truthyOptStr sampleKey = true ∧
    envSubmitDown.submit = .transportError ∧
    generate_image sampleKey sampleReq envSubmitDown =
      ⟨502, errBody "API request failed: <exception>",
       [Event.submit], [], none, []⟩ :=
  ⟨by decide, rfl,
    claim_C9_error_mapping.2.1 sampleKey sampleReq envSubmitDown
      (some (Json.str "a cat on a laptop")) (by decide) rfl (by decide) rfl⟩

/-- Claim C10: the deadline check precedes every status call, so every
recorded status-call issue time is the submit duration plus a loop clock
of at most 120 units; a 504 outcome happens only at a deadline check, its
trace being the submit followed by whole status-then-sleep rounds (never
between issuing a status call and receiving its response); and the submit
duration itself does not count against the window: two environments
differing only in the submit duration produce the same status code, body
and trace, with issue times shifted by exactly that duration. -/
theorem claim_C10_deadline_discipline :
    (∀ (key : Option String) (reqBody : Json) (env : Env) (t : Nat),
      t ∈ (generate_image key reqBody env).issues →
      ∃ e, e ≤ TIMEOUT ∧ t = env.submitDuration + e) ∧
    (∀ (key : Option String) (reqBody : Json) (env : Env),
      (generate_image key reqBody env).statusCode = 504 →
      ∃ k, (generate_image key reqBody env).events =
        Event.submit ::
          (List.replicate k [Event.status, Event.sleep POLL_INTERVAL]).flatten) ∧
    (∀ (key : Option String) (reqBody : Json) (sub : CallResult)
       (sd d : Nat) (sc : Nat → CallResult) (sdur : Nat → Nat)
       (f : CallResult) (fd : Nat),
      (generate_image key reqBody ⟨sub, d, sc, sdur, f, fd⟩).statusCode =
        (generate_image key reqBody ⟨sub, sd, sc, sdur, f, fd⟩).statusCode ∧
      (generate_image key reqBody ⟨sub, d, sc, sdur, f, fd⟩).body =
        (generate_image key reqBody ⟨sub, sd, sc, sdur, f, fd⟩).body ∧
      (generate_image key reqBody ⟨sub, d, sc, sdur, f, fd⟩).events =
        (generate_image key reqBody ⟨sub, sd, sc, sdur, f, fd⟩).events ∧
      (generate_image key reqBody ⟨sub, d, sc, sdur, f, fd⟩).issues.map
          (fun t => t - d) =
        (generate_image key reqBody ⟨sub, sd, sc, sdur, f, fd⟩).issues.map
          (fun t => t - sd)) := by
  refine ⟨?_, ?_, ?_⟩
  · intro key reqBody env t ht
    rcases gen_cases key reqBody env with h | h | h | h | h | h | h <;>
      rw [h] at ht
    iterate 6 simp at ht
    rw [afterSubmit_issues] at ht
    obtain ⟨e, hmem, hfe⟩ := List.mem_map.mp ht
    exact ⟨e, (pollLoop_invariants env.statusCalls env.statusDurations
      (TIMEOUT + 1) 0 0 (by omega)).2.1 e hmem, hfe.symm⟩
  · intro key reqBody env h504
    rcases gen_cases key reqBody env with h | h | h | h | h | h | h <;>
      rw [h] at h504
    iterate 6 simp at h504
    rw [h]
    cases hex : (pollLoop env.statusCalls env.statusDurations 0 0).exit with
    | timeout e =>
      rw [afterSubmit_timeout env e hex]
      obtain ⟨k, hk⟩ := (pollLoop_invariants env.statusCalls
        env.statusDurations (TIMEOUT + 1) 0 0 (by omega)).2.2 e hex
      exact ⟨k, by rw [hk]⟩
    | httpError e =>
      rw [afterSubmit_httpError env e hex] at h504
      simp at h504
    | attrError e =>
      rw [afterSubmit_exit_eq] at h504
      simp [hex] at h504
    | jobFailed e =>
      rw [afterSubmit_jobFailed env e hex] at h504
      simp at h504
    | complete e =>
      rw [afterSubmit_complete env e hex] at h504
      have h504b : (fetchStage env.fetch).1 = 504 := h504
      rcases fetchStage_taxonomy env.fetch with ⟨h1, _⟩ | ⟨h1, _⟩
      · rw [h1] at h504b
        exact absurd h504b (by decide)
      · rcases h1 with h1 | h1 <;> rw [h1] at h504b
        · exact absurd h504b (by decide)
        · exact absurd h504b (by decide)
  · intro key reqBody sub sd d sc sdur f fd
    cases hkey : truthyOptStr key with
    | false =>
      refine ⟨?_, ?_, ?_, ?_⟩ <;> simp [generate_image, hkey]
    | true =>
      cases hp : dictGet reqBody "prompt" with
      | error u =>
        cases u
        refine ⟨?_, ?_, ?_, ?_⟩ <;> simp [generate_image, hkey, hp]
      | ok prompt =>
        cases hpt : truthyOptJson prompt with
        | false =>
          refine ⟨?_, ?_, ?_, ?_⟩ <;> simp [generate_image, hkey, hp, hpt]
        | true =>
          cases sub with
          | transportError =>
            refine ⟨?_, ?_, ?_, ?_⟩ <;> simp [generate_image, hkey, hp, hpt]
          | ok scode sbody =>
            by_cases hsc : 400 ≤ scode ∧ scode < 600
            · refine ⟨?_, ?_, ?_, ?_⟩ <;>
                simp [generate_image, hkey, hp, hpt, hsc]
            · cases hr : dictGet sbody "request_id" with
              | error u =>
                cases u
                refine ⟨?_, ?_, ?_, ?_⟩ <;>
                  simp [generate_image, hkey, hp, hpt, hsc, hr]
              | ok rid =>
                cases hrt : truthyOptJson rid with
                | false =>
                  refine ⟨?_, ?_, ?_, ?_⟩ <;>
                    simp [generate_image, hkey, hp, hpt, hsc, hr, hrt]
                | true =>
                  have e1 : generate_image key reqBody
                      ⟨CallResult.ok scode sbody, d, sc, sdur, f, fd⟩ =
                      afterSubmit ⟨CallResult.ok scode sbody, d, sc, sdur, f, fd⟩ :=
                    generate_image_eq_afterSubmit key reqBody
                      ⟨CallResult.ok scode sbody, d, sc, sdur, f, fd⟩
                      prompt rid scode sbody hkey hp hpt rfl hsc hr hrt
                  have e2 : generate_image key reqBody
                      ⟨CallResult.ok scode sbody, sd, sc, sdur, f, fd⟩ =
                      afterSubmit ⟨CallResult.ok scode sbody, sd, sc, sdur, f, fd⟩ :=
                    generate_image_eq_afterSubmit key reqBody
                      ⟨CallResult.ok scode sbody, sd, sc, sdur, f, fd⟩
                      prompt rid scode sbody hkey hp hpt rfl hsc hr hrt
                  rw [e1, e2]
                  exact afterSubmit_submitDuration
                    (CallResult.ok scode sbody) sd d sc sdur f fd

/-- Witness for C10: a status call issued with loop clock 0, recorded at
absolute time submit-duration plus 0. -/
theorem claim_C10_deadline_discipline_witness :
    1 ∈ (generate_image sampleKey sampleReq envComplete).issues ∧
    ∃ e, e ≤ TIMEOUT ∧ 1 = envComplete.submitDuration + e := by
  have hpoll : pollLoop envComplete.statusCalls
      envComplete.statusDurations 0 0 =
      ⟨[Event.status], [0], .complete 0⟩ := by
    rw [pollLoop_complete_step envComplete.statusCalls
      envComplete.statusDurations 0 0 (by decide) (by decide)]
    rfl
  have hmem : 1 ∈ (generate_image sampleKey sampleReq envComplete).issues := by
    rw [generate_image_eq_afterSubmit sampleKey sampleReq envComplete
      (some (Json.str "a cat on a laptop")) (some (Json.str "req-1"))
      200 sampleSubmitBody
      (by decide) rfl (by decide) rfl (by decide) rfl (by decide)]
    rw [afterSubmit_issues, hpoll]
    decide
  exact ⟨hmem, claim_C10_deadline_discipline.1 sampleKey sampleReq
    envComplete 1 hmem⟩

end FalProxy
